import Mathlib

/-!
# Verification of `dch_wrapper.py`

A shallow embedding of the single-file Python program `src/dch_wrapper.py`.
The program is a linear orchestration of external processes (git queries and
invocations of the `dch` changelog tool).  We model every external
interaction as a field of an `Env` record holding the outcome the outside
world would produce (`none` models a raised `CalledProcessError` for
subprocess queries, and a raised `KeyboardInterrupt` for interactive
prompts), and each embedded function returns its Python return value
together with the list of external invocations it performed, in order.

String handling mirrors Python semantics (`str.strip`, `str.split('\n')`,
`str.lstrip('v')`, `str.lower`, substring containment via `in`) with
structurally recursive definitions over `List Char`, so that every
definition evaluates inside the kernel.
-/

namespace DchWrapper

/-- ASCII whitespace recognised by Python `str.strip()` (space, tab,
newline, carriage return, vertical tab, form feed).  The program only ever
strips output of subprocesses and terminal input, which is ASCII-framed. -/
def isPySpace (c : Char) : Bool :=
  c == ' ' || c == '\t' || c == '\n' || c == '\r' ||
  c == Char.ofNat 11 || c == Char.ofNat 12

/-- Python `s.strip()`: remove leading and trailing whitespace. -/
def pyStrip (s : String) : String :=
  String.mk ((((s.data.dropWhile isPySpace).reverse).dropWhile isPySpace).reverse)

/-- Split a character list at every occurrence of `c` (Python
`str.split(c)` with a single-character separator). -/
def splitRun (c : Char) : List Char → List Char × List (List Char)
  | [] => ([], [])
  | x :: xs =>
      let r := splitRun c xs
      if x == c then ([], r.1 :: r.2) else (x :: r.1, r.2)

/-- Python `s.split('\n')`. -/
def pySplitNl (s : String) : List String :=
  let r := splitRun '\n' s.data
  (r.1 :: r.2).map String.mk

/-- Whether `p` occurs at the front of `s`. -/
def matchesFront : List Char → List Char → Bool
  | [], _ => true
  | _ :: _, [] => false
  | x :: p, y :: s => x == y && matchesFront p s

/-- Whether `p` occurs as a contiguous sublist of `s`. -/
def hasSubstr : List Char → List Char → Bool
  | [], p => p.isEmpty
  | s@(_ :: t), p => matchesFront p s || hasSubstr t p

/-- Python `needle in hay` on strings. -/
def pyContains (hay needle : String) : Bool :=
  hasSubstr hay.data needle.data

/-- ASCII lower-casing of one character, as Python `str.lower()` acts on
the ASCII range (the only inputs the program compares after lowering). -/
def toLowerAscii (c : Char) : Char :=
  if 'A' ≤ c && c ≤ 'Z' then Char.ofNat (c.toNat + 32) else c

/-- Python `s.lower()` restricted to ASCII case mapping. -/
def pyLower (s : String) : String :=
  String.mk (s.data.map toLowerAscii)

/-- Python `s.lstrip(c)` for a single-character strip set: removes every
leading occurrence of `c`. -/
def pyLstripChar (s : String) (c : Char) : String :=
  String.mk (s.data.dropWhile (fun x => x == c))

/-- Python `'\n'.join(lines)`. -/
def joinNl : List String → String
  | [] => ""
  | [x] => x
  | x :: xs => x ++ "\n" ++ joinNl xs

/-- An external invocation performed by the program.  git queries record
which query ran; `dchAppend` records one `dch -v VERSION -a LINE` call and
`dchEdit` the final `dch -e` call. -/
inductive Event where
  | gitStatusQuery : Event
  | gitTagQuery : Event
  | gitLogQuery (args : List String) : Event
  | dchAppend (version line : String) : Event
  | dchEdit : Event
deriving DecidableEq, Repr

/-- Outcome of the non-dry-run `dch` invocation sequence in `run_dch`
(the appends, numbered from 0, followed by the `dch -e` edit at index
`n` for `n` appends): all succeed, a `CalledProcessError` is raised by
invocation `k`, or a `KeyboardInterrupt` arrives during invocation `k`. -/
inductive DchRun where
  | allOk : DchRun
  | failAt (k : Nat) : DchRun
  | interruptAt (k : Nat) : DchRun
deriving DecidableEq, Repr

/-- The outside world as the program observes it during one run.
`statusResult`, `tagResult`, `logResult` hold the raw stdout of
`git status --porcelain`, `git describe --tags --abbrev=0` and
`git log --format=%s --no-merges` (`none` models the subprocess raising
`CalledProcessError`).  `logResult` is the subject lines of the FULL
commit history, newest first, because that is the exact command the
program runs.  `versionInput` and `confirmInput` are the user's answers at
the two interactive prompts (`none` models `KeyboardInterrupt`). -/
structure Env where
  dchAvailable : Bool
  statusResult : Option String
  confirmInput : Option String
  tagResult : Option String
  versionInput : Option String
  logResult : Option String
  debianDirExists : Bool
  dchRun : DchRun
deriving Repr

/-- The argument vector of the log query the program always runs
(`dch_wrapper.py` line 166): no tag range is ever passed. -/
def gitLogArgs : List String := ["git", "log", "--format=%s", "--no-merges"]

/-- The default version computed by `get_latest_version_from_git_tag`
(lines 117-135): the stripped tag with every leading `v` removed via
`lstrip('v')`, or the literal `"1.0.0"` when the query fails or returns
an empty string. -/
def defaultVersionOf : Option String → String
  | none => "1.0.0"
  | some out =>
      let latest_tag := pyStrip out
      if latest_tag == "" then "1.0.0" else pyLstripChar latest_tag 'v'

/-- `DchWrapper.get_latest_version_from_git_tag` (lines 107-154).  With
`skip_input` (dry-run) the default is returned directly; otherwise the
user's input is stripped and used unless empty, and a `KeyboardInterrupt`
at the prompt is caught and the DEFAULT version returned (line 154). -/
def get_latest_version_from_git_tag (env : Env) (skip_input : Bool) :
    String × List Event :=
  let d := defaultVersionOf env.tagResult
  if skip_input then (d, [Event.gitTagQuery])
  else
    match env.versionInput with
    | none => (d, [Event.gitTagQuery])
    | some inp =>
        let u := pyStrip inp
        (if u == "" then d else u, [Event.gitTagQuery])

/-- `DchWrapper.get_git_changes_since_last_tag` (lines 156-187).  Despite
its name it runs `git log --format=%s --no-merges` over the whole history.
On query failure or empty output it returns a placeholder string;
otherwise the stripped, blank-filtered subject lines joined by newlines. -/
def get_git_changes_since_last_tag (env : Env) : String × List Event :=
  match env.logResult with
  | none => ("无法获取变更记录", [Event.gitLogQuery gitLogArgs])
  | some out =>
      let commits := pyStrip out
      if commits == "" then ("无变更记录", [Event.gitLogQuery gitLogArgs])
      else
        let formatted :=
          ((pySplitNl commits).map pyStrip).filter (fun l => !(l == ""))
        (joinNl formatted, [Event.gitLogQuery gitLogArgs])

/-- Line 211: a status line counts as a changelog modification when its
stripped form is nonempty and the raw line contains `debian/changelog`. -/
def changelogDirty (status : String) : Bool :=
  (pySplitNl status).any
    (fun l => !(pyStrip l == "") && pyContains l "debian/changelog")

/-- Line 237: accepted confirmation answers after strip and lower. -/
def confirmAccepts (r : String) : Bool :=
  let resp := pyLower (pyStrip r)
  resp == "y" || resp == "yes" || resp == "是"

/-- `DchWrapper.check_git_status` (lines 189-250).  Query failure and a
clean tree both continue; a dirty changelog aborts; otherwise the user is
asked for confirmation, with `KeyboardInterrupt` treated as a decline. -/
def check_git_status (env : Env) : Bool × List Event :=
  match env.statusResult with
  | none => (true, [Event.gitStatusQuery])
  | some out =>
      let status := pyStrip out
      if status == "" then (true, [Event.gitStatusQuery])
      else if changelogDirty status then (false, [Event.gitStatusQuery])
      else
        match env.confirmInput with
        | none => (false, [Event.gitStatusQuery])
        | some r => (confirmAccepts r, [Event.gitStatusQuery])

/-- Lines 272-277: the changelog lines `run_dch` will feed to `dch -a`.
A truthy (nonempty) custom message is used verbatim as a single line;
`None` or the empty string fall through to the log derivation, whose
result is split, stripped and blank-filtered again. -/
def changelogLinesOf (env : Env) (custom_message : Option String) :
    List String × List Event :=
  let fromLog :=
    let r := get_git_changes_since_last_tag env
    (((pySplitNl r.1).map pyStrip).filter (fun l => !(l == "")), r.2)
  match custom_message with
  | some m => if m == "" then fromLog else ([m], [])
  | none => fromLog

/-- The full `dch` invocation sequence of a non-dry run (lines 290-304):
one append per changelog line, then the edit pass. -/
def dchSequence (version : String) (lines : List String) : List Event :=
  lines.map (fun l => Event.dchAppend version l) ++ [Event.dchEdit]

/-- `DchWrapper.run_dch` (lines 252-311).  Missing `debian/` directory
returns failure before anything else runs.  Dry-run prints the commands
and succeeds without invoking `dch`.  Otherwise the append/edit sequence
runs until it completes, a command fails, or an interrupt arrives; the
latter two return failure. -/
def run_dch (dry : Bool) (env : Env) (custom_message : Option String) :
    Bool × List Event :=
  if !env.debianDirExists then (false, [])
  else
    let v := get_latest_version_from_git_tag env dry
    let cl := changelogLinesOf env custom_message
    if dry then (true, v.2 ++ cl.2)
    else
      match env.dchRun with
      | DchRun.allOk => (true, v.2 ++ cl.2 ++ dchSequence v.1 cl.1)
      | DchRun.failAt k =>
          (false, v.2 ++ cl.2 ++ (dchSequence v.1 cl.1).take (k + 1))
      | DchRun.interruptAt k =>
          (false, v.2 ++ cl.2 ++ (dchSequence v.1 cl.1).take (k + 1))

/-- `DchWrapper.run` (lines 313-338): availability check, environment
setup (only mutates process environment variables, not modelled), status
check, then `run_dch`. -/
def run (dry : Bool) (env : Env) (custom_message : Option String) :
    Bool × List Event :=
  if !env.dchAvailable then (false, [])
  else
    let s := check_git_status env
    if !s.1 then (false, s.2)
    else
      let r := run_dch dry env custom_message
      (r.1, s.2 ++ r.2)

/-- `main` (lines 341-385): exit code 0 on success, 1 on failure. -/
def mainExitCode (dry : Bool) (env : Env) (msg : Option String) : Nat :=
  if (run dry env msg).1 then 0 else 1

/-- Whether an event is an invocation of the external `dch` tool. -/
def isDchEvent : Event → Bool
  | Event.dchAppend _ _ => true
  | Event.dchEdit => true
  | _ => false

/-- The `dch` invocations among a trace, in order. -/
def dchCalls (evs : List Event) : List Event := evs.filter isDchEvent

/-- Concrete environment for the C1 witness: `git status --porcelain`
reports `debian/changelog` modified, everything else is available. -/
def envC1 : Env :=
  { dchAvailable := true, statusResult := some " M debian/changelog",
    confirmInput := none, tagResult := none, versionInput := none,
    logResult := none, debianDirExists := true, dchRun := DchRun.allOk }

/-- Concrete environment for the C9 witness: no `debian/` directory. -/
def envC9 : Env :=
  { dchAvailable := true, statusResult := some "", confirmInput := none,
    tagResult := some "v2.0", versionInput := none,
    logResult := some "some commit", debianDirExists := false,
    dchRun := DchRun.allOk }

/-- Concrete environment for the C2 counterexample: a dry run on a
machine where the `dch` tool is not installed. -/
def envC2Cex : Env :=
  { dchAvailable := false, statusResult := some "", confirmInput := none,
    tagResult := none, versionInput := none, logResult := none,
    debianDirExists := true, dchRun := DchRun.allOk }

/-- Concrete environment for the C2 witness: a fully healthy dry run. -/
def envC2W : Env :=
  { dchAvailable := true, statusResult := some "", confirmInput := none,
    tagResult := some "v1.0", versionInput := none,
    logResult := some "add feature", debianDirExists := true,
    dchRun := DchRun.allOk }

/-- Concrete environment for the C4 witness: the tag query fails and the
full history has two commit subjects. -/
def envC4 : Env :=
  { dchAvailable := true, statusResult := some "", confirmInput := none,
    tagResult := none, versionInput := none,
    logResult := some "feat a\nfix b", debianDirExists := true,
    dchRun := DchRun.allOk }

/-- Concrete environment for C3: the latest tag is `v1.2.0` and the full
history (newest first) contains a commit made after the tag and one made
before it. -/
def envC3 : Env :=
  { dchAvailable := true, statusResult := some "", confirmInput := none,
    tagResult := some "v1.2.0", versionInput := none,
    logResult := some "after tag fix\nbefore tag work",
    debianDirExists := true, dchRun := DchRun.allOk }

/-- Concrete environment for C5: the latest tag `v1.2.0` points at HEAD,
so the full history is exactly the single tagged commit's subject. -/
def envC5 : Env :=
  { dchAvailable := true, statusResult := some "", confirmInput := none,
    tagResult := some "v1.2.0", versionInput := none,
    logResult := some "initial commit", debianDirExists := true,
    dchRun := DchRun.allOk }

/-- Concrete environment for the C7 counterexample: the working tree is
clean, everything is available, and the user sends `KeyboardInterrupt` at
the version prompt (`versionInput = none`). -/
def envC7 : Env :=
  { dchAvailable := true, statusResult := some "", confirmInput := none,
    tagResult := some "v1.0", versionInput := none,
    logResult := some "x", debianDirExists := true, dchRun := DchRun.allOk }

/-- Concrete environment for the C7 witness, declined-confirmation part:
a non-changelog file is dirty and the user answers `n`. -/
def envC7W : Env :=
  { dchAvailable := true, statusResult := some " M src/file",
    confirmInput := some "n", tagResult := some "v1.0",
    versionInput := some "", logResult := some "x",
    debianDirExists := true, dchRun := DchRun.allOk }

/-- Concrete environment for the C7 witness, interrupt-during-`dch` part:
a `KeyboardInterrupt` arrives during the first `dch` invocation. -/
def envC7I : Env :=
  { dchAvailable := true, statusResult := some "", confirmInput := none,
    tagResult := some "v1.0", versionInput := some "",
    logResult := some "x", debianDirExists := true,
    dchRun := DchRun.interruptAt 0 }

/-- Concrete environment for the C8 witness: a healthy non-dry run. -/
def envC8W : Env :=
  { dchAvailable := true, statusResult := some "", confirmInput := none,
    tagResult := some "v2.1", versionInput := some "",
    logResult := some "y", debianDirExists := true, dchRun := DchRun.allOk }

/-- Concrete environment for the C8 counterexample: a healthy repository
whose full-history log has one subject line. -/
def envC8 : Env :=
  { dchAvailable := true, statusResult := some "", confirmInput := none,
    tagResult := some "v1.0", versionInput := some "",
    logResult := some "log subject", debianDirExists := true,
    dchRun := DchRun.allOk }

/-- If the stripped status output is nonempty and some nonblank line
mentions `debian/changelog`, `check_git_status` aborts. -/
theorem check_git_status_dirty (env : Env) (s l : String)
    (hs : env.statusResult = some s) (hl : l ∈ pySplitNl (pyStrip s))
    (hne : ¬ pyStrip l = "") (hc : pyContains l "debian/changelog" = true) :
    check_git_status env = (false, [Event.gitStatusQuery]) := by
  have hd : changelogDirty (pyStrip s) = true := by
    unfold changelogDirty
    rw [List.any_eq_true]
    refine ⟨l, hl, ?_⟩
    simp [hne, hc]
  have hs0 : (pyStrip s == "") = false := by
    rw [beq_eq_false_iff_ne]
    intro h0
    rw [h0] at hl
    have : pySplitNl "" = [""] := by decide
    rw [this] at hl
    simp at hl
    subst hl
    exact hne (by decide)
  simp [check_git_status, hs, hs0, hd]

/-- C1: whenever the version-control status query reports
`debian/changelog` as modified (a nonblank porcelain line containing that
path), the whole run fails and the trace contains no `dch` invocation at
all, in either mode and for any message. -/
theorem c1_dirty_changelog_aborts (dry : Bool) (env : Env)
    (cm : Option String) (s l : String)
    (hs : env.statusResult = some s) (hl : l ∈ pySplitNl (pyStrip s))
    (hne : ¬ pyStrip l = "") (hc : pyContains l "debian/changelog" = true) :
    (run dry env cm).1 = false ∧ dchCalls (run dry env cm).2 = [] := by
  have hcheck := check_git_status_dirty env s l hs hl hne hc
  cases ha : env.dchAvailable <;>
    simp [run, ha, hcheck, dchCalls, isDchEvent]

/-- C1 witness: the theorem applied to a concrete dirty-changelog run. -/
theorem c1_dirty_changelog_aborts_witness :
    (run false envC1 none).1 = false ∧ dchCalls (run false envC1 none).2 = [] :=
  c1_dirty_changelog_aborts false envC1 none " M debian/changelog"
    "M debian/changelog" rfl (by decide) (by decide) (by decide)

/-- C9: without a `debian` subdirectory, `run_dch` fails immediately: no
tag query (version derivation), no log query (description derivation) and
no `dch` invocation appear in the trace, dry-run included. -/
theorem c9_missing_debian_dir_fails (dry : Bool) (env : Env)
    (cm : Option String) (h : env.debianDirExists = false) :
    run_dch dry env cm = (false, []) := by
  simp [run_dch, h]

/-- C9 witness: the theorem applied to a concrete run lacking `debian/`. -/
theorem c9_missing_debian_dir_fails_witness :
    run_dch true envC9 (some "msg") = (false, []) :=
  c9_missing_debian_dir_fails true envC9 (some "msg") rfl

/-- C10: an empty-string message is falsy in Python, so `run_dch` behaves
exactly as if no message had been supplied: the description comes from the
commit log. -/
theorem c10_empty_message_treated_as_absent (dry : Bool) (env : Env) :
    run_dch dry env (some "") = run_dch dry env none := rfl

/-- The status check performs exactly one status query on every path. -/
theorem check_git_status_trace (env : Env) :
    (check_git_status env).2 = [Event.gitStatusQuery] := by
  unfold check_git_status
  rcases env.statusResult with _ | out
  · rfl
  · dsimp only
    split
    · rfl
    · split
      · rfl
      · rcases env.confirmInput with _ | r <;> rfl

/-- Version derivation performs exactly one tag query on every path. -/
theorem version_trace (env : Env) (skip_input : Bool) :
    (get_latest_version_from_git_tag env skip_input).2 =
      [Event.gitTagQuery] := by
  unfold get_latest_version_from_git_tag
  split
  · rfl
  · rcases env.versionInput with _ | inp <;> rfl

/-- The log derivation performs exactly one log query, with the fixed
full-history argument vector, on every path. -/
theorem gitChanges_trace (env : Env) :
    (get_git_changes_since_last_tag env).2 = [Event.gitLogQuery gitLogArgs] := by
  unfold get_git_changes_since_last_tag
  rcases env.logResult with _ | out
  · rfl
  · dsimp only
    split <;> rfl

/-- The changelog-line computation never invokes `dch`. -/
theorem changelogLines_no_dch (env : Env) (cm : Option String) :
    dchCalls (changelogLinesOf env cm).2 = [] := by
  unfold changelogLinesOf
  rcases cm with _ | m
  · simp [gitChanges_trace, dchCalls, isDchEvent]
  · dsimp only
    split
    · simp [gitChanges_trace, dchCalls, isDchEvent]
    · rfl

/-- C2 counterexample: a simulate (dry-run) invocation exits with code 1
when the `dch` tool is missing, refuting "always exits with success". -/
theorem c2_simulate_failure_cex : mainExitCode true envC2Cex none = 1 := by
  decide

/-- C2 (amended): simulate mode never invokes the external tool under any
conditions, and exits with code 0 provided the tool-availability check,
the git-status check and the `debian/` directory check all pass. -/
theorem c2_simulate_mode (env : Env) (cm : Option String) :
    dchCalls (run true env cm).2 = [] ∧
    (env.dchAvailable = true → (check_git_status env).1 = true →
      env.debianDirExists = true → mainExitCode true env cm = 0) := by
  constructor
  · have hcl := changelogLines_no_dch env cm
    simp only [dchCalls] at hcl
    cases ha : env.dchAvailable
    · simp [run, ha, dchCalls]
    · cases hs : (check_git_status env).1
      · simp [run, ha, hs, check_git_status_trace, dchCalls, isDchEvent]
      · cases hd : env.debianDirExists
        · simp [run, run_dch, ha, hs, hd, check_git_status_trace,
            dchCalls, isDchEvent]
        · simp [run, run_dch, ha, hs, hd, check_git_status_trace,
            version_trace, dchCalls, List.filter_append, isDchEvent, hcl]
  · intro ha hs hd
    simp [mainExitCode, run, run_dch, ha, hs, hd]

/-- C2 witness: the amended theorem applied to a healthy dry run. -/
theorem c2_simulate_mode_witness :
    dchCalls (run true envC2W none).2 = [] ∧
    mainExitCode true envC2W none = 0 :=
  ⟨(c2_simulate_mode envC2W none).1,
   (c2_simulate_mode envC2W none).2 rfl (by decide) rfl⟩

/-- C4: when the tag query fails or returns only whitespace, the default
version is the literal `"1.0.0"`, and the description derivation runs the
fixed full-history log command and formats its output (stripped, blank
lines removed, rejoined). -/
theorem c4_no_tag_defaults (env : Env)
    (h : env.tagResult = none ∨
      ∃ s, env.tagResult = some s ∧ pyStrip s = "") :
    defaultVersionOf env.tagResult = "1.0.0" ∧
    (get_git_changes_since_last_tag env).2 = [Event.gitLogQuery gitLogArgs] ∧
    (∀ out, env.logResult = some out → ¬ pyStrip out = "" →
      (get_git_changes_since_last_tag env).1 =
        joinNl (((pySplitNl (pyStrip out)).map pyStrip).filter
          (fun l => !(l == "")))) := by
  refine ⟨?_, gitChanges_trace env, ?_⟩
  · rcases h with h | ⟨s, hs, he⟩
    · rw [h]; rfl
    · rw [hs]
      unfold defaultVersionOf
      simp [he]
  · intro out hout hne
    unfold get_git_changes_since_last_tag
    rw [hout]
    dsimp only
    rw [if_neg]
    simp [hne]

/-- C4 witness: the theorem applied to a concrete no-tag environment. -/
theorem c4_no_tag_defaults_witness :
    defaultVersionOf envC4.tagResult = "1.0.0" ∧
    (get_git_changes_since_last_tag envC4).2 =
      [Event.gitLogQuery gitLogArgs] ∧
    (get_git_changes_since_last_tag envC4).1 = "feat a\nfix b" := by
  obtain ⟨h1, h2, h3⟩ := c4_no_tag_defaults envC4 (Or.inl rfl)
  refine ⟨h1, h2, ?_⟩
  rw [h3 "feat a\nfix b" rfl (by decide)]
  decide

/-- C6 counterexample: on the tag `vv1.2.0` the code yields `1.2.0`, not
the `v1.2.0` that stripping a single leading `v` would give: `lstrip('v')`
removes every leading `v`. -/
theorem c6_single_strip_cex :
    ¬ defaultVersionOf (some "vv1.2.0") = "v1.2.0" ∧
    defaultVersionOf (some "vv1.2.0") = "1.2.0" := by decide

/-- C6 (amended): version derivation strips ALL leading `v` characters
from the stripped tag (so a tag without a leading `v` is kept unchanged),
and defaults to the literal `1.0.0` when the tag query fails. -/
theorem c6_lstrip_all_leading_v (t : String) :
    defaultVersionOf none = "1.0.0" ∧
    (pyStrip t = t → ¬ t = "" →
      (defaultVersionOf (some t)).data =
        t.data.dropWhile (fun c => c == 'v') ∧
      (t.data.head? ≠ some 'v' → defaultVersionOf (some t) = t)) := by
  refine ⟨rfl, fun hst hne => ?_⟩
  have he : (t == "") = false := beq_eq_false_iff_ne.mpr hne
  have hval : defaultVersionOf (some t) = pyLstripChar t 'v' := by
    unfold defaultVersionOf
    dsimp only
    rw [hst]
    simp [he]
  constructor
  · rw [hval]; rfl
  · intro hh
    rw [hval]
    unfold pyLstripChar
    have hdrop : t.data.dropWhile (fun x => x == 'v') = t.data := by
      cases ht : t.data with
      | nil => rfl
      | cons c cs =>
          rw [ht] at hh
          have hcv : (c == 'v') = false := by
            rw [beq_eq_false_iff_ne]
            intro hic
            exact hh (by rw [hic]; rfl)
          rw [List.dropWhile_cons, hcv]
          rfl
    rw [hdrop]

/-- C6 witness: the amended theorem at the concrete tags `v1.2.0` (leading
`v` run stripped) and `rel1` (no leading `v`, kept unchanged). -/
theorem c6_lstrip_all_leading_v_witness :
    (defaultVersionOf (some "v1.2.0")).data =
      ("v1.2.0" : String).data.dropWhile (fun c => c == 'v') ∧
    defaultVersionOf (some "rel1") = "rel1" :=
  ⟨((c6_lstrip_all_leading_v "v1.2.0").2 (by decide) (by decide)).1,
   ((c6_lstrip_all_leading_v "rel1").2 (by decide) (by decide)).2 (by decide)⟩

/-- C3: the description derivation runs the same fixed full-history log
command in every environment — the command carries no range bounded by
the latest tag — and on the concrete repository `envC3`, whose history
has a commit older than the tag `v1.2.0`, the derived changelog lines
include that pre-tag commit, contradicting "commit subject lines between
the most recent tag and the current position". -/
theorem c3_description_uses_full_history :
    (∀ env : Env, (get_git_changes_since_last_tag env).2 =
      [Event.gitLogQuery gitLogArgs]) ∧
    (changelogLinesOf envC3 none).1 = ["after tag fix", "before tag work"] :=
  ⟨gitChanges_trace, by decide⟩

/-- C5: with latest tag `v1.2.0` at HEAD and no commits after it, the
derived version is `1.2.0` as claimed, but the derived description is the
full history's subject line — neither empty nor the code's own
placeholder for an empty log. -/
theorem c5_tagged_head_description_nonempty :
    defaultVersionOf envC5.tagResult = "1.2.0" ∧
    (changelogLinesOf envC5 none).1 = ["initial commit"] ∧
    ¬ (changelogLinesOf envC5 none).1 = [] ∧
    ¬ (changelogLinesOf envC5 none).1 = ["无变更记录"] := by decide

/-- C7 counterexample: an interrupt at the version prompt
(`versionInput = none`) does not abort: the run succeeds and invokes the
external tool with the derived default version, refuting "an interrupt at
any interactive prompt stops the run with overall failure". -/
theorem c7_version_interrupt_continues_cex :
    (run false envC7 (some "fix")).1 = true ∧
    dchCalls (run false envC7 (some "fix")).2 =
      [Event.dchAppend "1.0" "fix", Event.dchEdit] := by decide

/-- C7 (amended): cancellation at the confirmation prompt — interrupt or
a declined answer — aborts with overall failure and no `dch` invocation,
and an interrupt during the `dch` invocation sequence makes `run_dch`
fail; an interrupt at the version prompt, however, merely falls back to
the default version. -/
theorem c7_cancellation_aborts (dry : Bool) (env : Env)
    (cm : Option String) :
    ((∃ s, env.statusResult = some s ∧ ¬ pyStrip s = "" ∧
        changelogDirty (pyStrip s) = false ∧
        (env.confirmInput = none ∨
          ∃ r, env.confirmInput = some r ∧ confirmAccepts r = false)) →
      (run dry env cm).1 = false ∧ dchCalls (run dry env cm).2 = []) ∧
    (∀ k, env.dchRun = DchRun.interruptAt k → env.debianDirExists = true →
      (run_dch false env cm).1 = false) := by
  constructor
  · rintro ⟨s, hs, hne, hcd, hdec⟩
    have he : (pyStrip s == "") = false := beq_eq_false_iff_ne.mpr hne
    have hcheck : check_git_status env = (false, [Event.gitStatusQuery]) := by
      unfold check_git_status
      rw [hs]
      dsimp only
      rcases hdec with hdec | ⟨r, hr, hra⟩
      · simp [he, hcd, hdec]
      · simp [he, hcd, hr, hra]
    cases ha : env.dchAvailable <;>
      simp [run, ha, hcheck, dchCalls, isDchEvent]
  · intro k hk hd
    simp [run_dch, hd, hk]

/-- C7 witness: the amended theorem applied to a declined confirmation
and to an interrupt during the first `dch` invocation. -/
theorem c7_cancellation_aborts_witness :
    ((run false envC7W none).1 = false ∧
      dchCalls (run false envC7W none).2 = []) ∧
    (run_dch false envC7I none).1 = false :=
  ⟨(c7_cancellation_aborts false envC7W none).1
      ⟨" M src/file", rfl, by decide, by decide,
        Or.inr ⟨"n", rfl, by decide⟩⟩,
   (c7_cancellation_aborts false envC7I none).2 0 rfl rfl⟩

/-- C8 counterexample: supplying the empty string as the message does not
make it the description — the git log query still runs and the derived
lines come from the log, refuting "for every supplied message, the
description is exactly that message and the log query is not performed". -/
theorem c8_empty_message_cex :
    ¬ (changelogLinesOf envC8 (some "")).1 = [""] ∧
    (changelogLinesOf envC8 (some "")).2 = [Event.gitLogQuery gitLogArgs] ∧
    (changelogLinesOf envC8 (some "")).1 = ["log subject"] := by decide

/-- The `dch` invocation sequence contains no git log query. -/
theorem dchSequence_no_log (v : String) (ls : List String)
    (args : List String) : Event.gitLogQuery args ∉ dchSequence v ls := by
  simp [dchSequence]

/-- C8 (amended): supplying a NONEMPTY message makes it the single
changelog line, with no external query during the line computation, and
no git log query appears anywhere in the `run_dch` trace. -/
theorem c8_nonempty_message_bypasses_log (env : Env) (m : String)
    (hm : ¬ m = "") :
    changelogLinesOf env (some m) = ([m], []) ∧
    (∀ dry args, Event.gitLogQuery args ∉ (run_dch dry env (some m)).2) := by
  have he : (m == "") = false := beq_eq_false_iff_ne.mpr hm
  have hcl : changelogLinesOf env (some m) = ([m], []) := by
    unfold changelogLinesOf
    simp [he]
  refine ⟨hcl, fun dry args => ?_⟩
  cases hd : env.debianDirExists
  · simp [run_dch, hd]
  · cases dry
    · cases hr : env.dchRun
      · simp [run_dch, hd, hr, hcl, version_trace]
        intro hmem
        exact dchSequence_no_log _ _ args hmem
      · simp [run_dch, hd, hr, hcl, version_trace]
        intro hmem
        exact dchSequence_no_log _ _ args (List.take_subset _ _ hmem)
      · simp [run_dch, hd, hr, hcl, version_trace]
        intro hmem
        exact dchSequence_no_log _ _ args (List.take_subset _ _ hmem)
    · simp [run_dch, hd, hcl, version_trace]

/-- C8 witness: the amended theorem at a concrete nonempty message. -/
theorem c8_nonempty_message_bypasses_log_witness :
    changelogLinesOf envC8W (some "fix bug") = (["fix bug"], []) ∧
    Event.gitLogQuery gitLogArgs ∉ (run_dch false envC8W (some "fix bug")).2 :=
  ⟨(c8_nonempty_message_bypasses_log envC8W "fix bug" (by decide)).1,
   (c8_nonempty_message_bypasses_log envC8W "fix bug" (by decide)).2
      false gitLogArgs⟩

end DchWrapper
